import Mathlib

/-!
# IPMI interface core (`hw/ipmi/ipmi.c`)

A shallow embedding of the functions of `hw/ipmi/ipmi.c`:

* `ipmi_do_hw_op`        (lines 51-84)  the hardware-operation dispatcher,
* `ipmi_set_irq_enable`  (lines 86-89),
* `ipmi_interface_init`  (lines 100-120),
* `ipmi_thread`          (lines 35-49)  the worker loop, as a step function,
* `vmstate_IPMIInterface` (lines 148-163) the migration field table.

Calls into the host machine and into the threading library are recorded in
an effect trace (`List Effect`), in program order.  Of the header `ipmi.h`
only what `ipmi.c` uses is modelled: the fields of `IPMIInterface` are the ones
the C file reads and writes, the numeric value of
`IPMI_CC_COMMAND_NOT_SUPPORTED` and the capacity of `inmsg` are parameters.
-/

namespace Ipmi

/-! ## Data model -/

/-- The fields of `IPMIInterface` used by `ipmi.c`.  The four IRQ flags and
`write_end` are `bool` (`VMSTATE_BOOL`), `outpos`, `outlen`, `inlen` are
`uint32_t` (`VMSTATE_UINT32`, and the size field of `VMSTATE_VBUFFER_UINT32`),
`inmsg` is the inbound byte buffer, `slave_addr` is one configuration byte
with `0` standing for "not set" (line 111). -/
structure IPMIInterface where
  obf_irq_set : Bool
  atn_irq_set : Bool
  use_irq : Bool
  irqs_enabled : Bool
  outpos : Nat
  outlen : Nat
  inmsg : List Nat
  inlen : Nat
  write_end : Bool
  slave_addr : Nat
  do_wake : Bool
  threaded_bmc : Bool
  deriving DecidableEq, Repr

/-- A freshly created interface object: every field zero, `inmsg` holding
`cap` zero bytes. -/
def IPMIInterface.zeroed (cap : Nat) : IPMIInterface :=
  { obf_irq_set := false, atn_irq_set := false, use_irq := false,
    irqs_enabled := false, outpos := 0, outlen := 0,
    inmsg := List.replicate cap 0, inlen := 0, write_end := false,
    slave_addr := 0, do_wake := false, threaded_bmc := false }

/-- The enumerators of `enum ipmi_op` named in the `switch` of
`ipmi_do_hw_op`; `other raw` is any value of the enum type that is none of
the seven enumerators (it reaches the `default:` label). -/
inductive ipmi_op where
  | IPMI_RESET_CHASSIS
  | IPMI_POWEROFF_CHASSIS
  | IPMI_SEND_NMI
  | IPMI_POWERCYCLE_CHASSIS
  | IPMI_PULSE_DIAG_IRQ
  | IPMI_SHUTDOWN_VIA_ACPI_OVERTEMP
  | IPMI_POWERON_CHASSIS
  | other (raw : Int)
  deriving DecidableEq, Repr

/-- External calls made by `ipmi.c`, recorded in program order. -/
inductive Effect where
  | qemu_system_reset_request
  | qemu_system_powerdown_request
  | qemu_mutex_lock_iothread
  | qmp_inject_nmi
  | qemu_mutex_unlock_iothread
  | qemu_mutex_init
  | qemu_cond_init
  | qemu_thread_create
  deriving DecidableEq, Repr

/-- A state in the middle of an exchange: three bytes of an inbound message in
a five-byte buffer, a response of 70000 bytes read up to offset 3. -/
def IPMIInterface.sample : IPMIInterface :=
  { IPMIInterface.zeroed 0 with
    obf_irq_set := true, use_irq := true, irqs_enabled := true,
    outpos := 3, outlen := 70000, inmsg := [0x18, 0x01, 0xff, 0x07, 0x09],
    inlen := 3, write_end := true, slave_addr := 0x20 }

/-! ## `ipmi_do_hw_op` -/

/-- Result of a call: the returned `int`, the interface after the call, and
the external calls made. -/
structure HwOpResult where
  ret : Int
  state : IPMIInterface
  trace : List Effect
  deriving DecidableEq, Repr

/-- `ipmi_do_hw_op` (lines 51-84).  `cc_not_supported` is the value of the
macro `IPMI_CC_COMMAND_NOT_SUPPORTED`. -/
def ipmi_do_hw_op (cc_not_supported : Int) (s : IPMIInterface) (op : ipmi_op)
    (checkonly : Int) : HwOpResult :=
  match op with
  | .IPMI_RESET_CHASSIS =>
    if checkonly ≠ 0 then ⟨0, s, []⟩
    else ⟨0, s, [Effect.qemu_system_reset_request]⟩
  | .IPMI_POWEROFF_CHASSIS =>
    if checkonly ≠ 0 then ⟨0, s, []⟩
    else ⟨0, s, [Effect.qemu_system_powerdown_request]⟩
  | .IPMI_SEND_NMI =>
    if checkonly ≠ 0 then ⟨0, s, []⟩
    else ⟨0, s, [Effect.qemu_mutex_lock_iothread, Effect.qmp_inject_nmi,
                 Effect.qemu_mutex_unlock_iothread]⟩
  | .IPMI_POWERCYCLE_CHASSIS => ⟨cc_not_supported, s, []⟩
  | .IPMI_PULSE_DIAG_IRQ => ⟨cc_not_supported, s, []⟩
  | .IPMI_SHUTDOWN_VIA_ACPI_OVERTEMP => ⟨cc_not_supported, s, []⟩
  | .IPMI_POWERON_CHASSIS => ⟨cc_not_supported, s, []⟩
  | .other _ => ⟨cc_not_supported, s, []⟩

/-! ## `ipmi_set_irq_enable` -/

/-- `ipmi_set_irq_enable` (lines 86-89): `s->irqs_enabled = val`, the `int`
converted to `bool`. -/
def ipmi_set_irq_enable (s : IPMIInterface) (val : Int) : IPMIInterface :=
  { s with irqs_enabled := decide (val ≠ 0) }

/-! ## `ipmi_interface_init` -/

/-- An error object stored through `Error **errp`. -/
structure Error where
  msg : String
  deriving DecidableEq, Repr

/-- The optional class hook `k->init`: given the interface and the current
content of `*errp`, it returns the interface and `*errp` as it leaves them. -/
abbrev InitHook := IPMIInterface → Option Error → IPMIInterface × Option Error

/-- Result of `ipmi_interface_init`: the interface, the content of `*errp`,
and the threading calls made by the function itself. -/
structure InitResult where
  state : IPMIInterface
  errp : Option Error
  trace : List Effect
  deriving DecidableEq, Repr

/-- Lines 111-119 of `ipmi_interface_init`, the part after the hook: the
default of the slave address, then the three threading calls when
`threaded_bmc` is set. -/
def ipmi_interface_init_tail (s : IPMIInterface) (errp : Option Error) :
    InitResult :=
  let s1 := if s.slave_addr = 0 then { s with slave_addr := 0x20 } else s
  { state := s1,
    errp := errp,
    trace :=
      if s1.threaded_bmc then
        [Effect.qemu_mutex_init, Effect.qemu_cond_init, Effect.qemu_thread_create]
      else [] }

/-- `ipmi_interface_init` (lines 100-120).  `k_init` is `k->init` (`none` for a
null pointer), `errp` the content of `*errp` on entry.  With a hook present,
a non-null `*errp` after the hook returns at once (lines 106-108). -/
def ipmi_interface_init (k_init : Option InitHook) (s : IPMIInterface)
    (errp : Option Error) : InitResult :=
  match k_init with
  | some hook =>
    match hook s errp with
    | (s0, some e) => { state := s0, errp := some e, trace := [] }
    | (s0, none) => ipmi_interface_init_tail s0 none
  | none => ipmi_interface_init_tail s errp

/-! ## `ipmi_thread` -/

/-- Control points of the worker `ipmi_thread` (lines 39-46). -/
inductive WorkerPos where
  /-- Thread created, `qemu_mutex_lock` of line 39 not yet taken. -/
  | entry
  /-- Lock held, about to call `qemu_cond_wait` (line 41). -/
  | at_wait
  /-- Inside `qemu_cond_wait`: lock released, asleep until the condition is
  signalled. -/
  | blocked
  /-- Lock held, evaluating the loop condition `s->do_wake` (line 42). -/
  | test_wake
  /-- Lock held, loop body entered: about to store `do_wake = 0` and call
  the handler (lines 43-44). -/
  | clear_wake
  /-- Inside `handle_if_event` (line 44), lock held. -/
  | in_handler
  deriving DecidableEq, Repr

/-- The wake flag `s->do_wake`, the control point of the worker, and the
number of `handle_if_event` calls started so far. -/
structure ThreadState where
  do_wake : Bool
  pos : WorkerPos
  calls : Nat
  deriving DecidableEq, Repr

/-- The state right after `qemu_thread_create` (line 118): flag clear, worker
at its first instruction, handler never called. -/
def ThreadState.created : ThreadState :=
  { do_wake := false, pos := WorkerPos.entry, calls := 0 }

/-- One step of the worker itself (lines 39-46).  `none`: the worker cannot
move on its own, it sleeps in `qemu_cond_wait` until somebody signals. -/
def ipmi_thread_step (t : ThreadState) : Option ThreadState :=
  match t.pos with
  | .entry => some { t with pos := WorkerPos.at_wait }
  | .at_wait => some { t with pos := WorkerPos.blocked }
  | .blocked => none
  | .test_wake =>
    if t.do_wake then some { t with pos := WorkerPos.clear_wake }
    else some { t with pos := WorkerPos.at_wait }
  | .clear_wake =>
    some { do_wake := false, pos := WorkerPos.in_handler, calls := t.calls + 1 }
  | .in_handler => some { t with pos := WorkerPos.test_wake }

/-- Modelled from the spec: the poster of a wake, which is not in `ipmi.c`
("one boolean wake flag" with "a single mutex + condition variable pair").
The flag `do_wake` is set and the condition `waker` is signalled.  The signal
resumes the worker only when it sleeps in `qemu_cond_wait`; a condition
variable does not remember a signal sent while nobody waits. -/
def post_wake (t : ThreadState) : ThreadState :=
  match t.pos with
  | .blocked => { t with do_wake := true, pos := WorkerPos.test_wake }
  | _ => { t with do_wake := true }

/-- Posting `n` wakes in a row. -/
def post_wakes : Nat → ThreadState → ThreadState
  | 0, t => t
  | n + 1, t => post_wakes n (post_wake t)

/-- The worker running alone for at most `fuel` steps; it stops when it
sleeps in `qemu_cond_wait`. -/
def ipmi_thread_run : Nat → ThreadState → ThreadState
  | 0, t => t
  | fuel + 1, t =>
    match ipmi_thread_step t with
    | none => t
    | some t1 => ipmi_thread_run fuel t1

/-! ## `vmstate_IPMIInterface` -/

/-- The `bool` members named by the table. -/
inductive BoolField where
  | obf_irq_set | atn_irq_set | use_irq | irqs_enabled | write_end
  deriving DecidableEq, Repr

/-- The `uint32_t` members named by the table. -/
inductive U32Field where
  | outpos | outlen | inlen
  deriving DecidableEq, Repr

/-- The buffer member named by the table. -/
inductive BufField where
  | inmsg
  deriving DecidableEq, Repr

/-- Read a `bool` member. -/
def IPMIInterface.getBool (s : IPMIInterface) : BoolField → Bool
  | .obf_irq_set => s.obf_irq_set
  | .atn_irq_set => s.atn_irq_set
  | .use_irq => s.use_irq
  | .irqs_enabled => s.irqs_enabled
  | .write_end => s.write_end

/-- Write a `bool` member. -/
def IPMIInterface.setBool (s : IPMIInterface) (f : BoolField) (b : Bool) :
    IPMIInterface :=
  match f with
  | .obf_irq_set => { s with obf_irq_set := b }
  | .atn_irq_set => { s with atn_irq_set := b }
  | .use_irq => { s with use_irq := b }
  | .irqs_enabled => { s with irqs_enabled := b }
  | .write_end => { s with write_end := b }

/-- Read a `uint32_t` member. -/
def IPMIInterface.getU32 (s : IPMIInterface) : U32Field → Nat
  | .outpos => s.outpos
  | .outlen => s.outlen
  | .inlen => s.inlen

/-- Write a `uint32_t` member. -/
def IPMIInterface.setU32 (s : IPMIInterface) (f : U32Field) (n : Nat) :
    IPMIInterface :=
  match f with
  | .outpos => { s with outpos := n }
  | .outlen => { s with outlen := n }
  | .inlen => { s with inlen := n }

/-- Read a buffer member. -/
def IPMIInterface.getBuf (s : IPMIInterface) : BufField → List Nat
  | .inmsg => s.inmsg

/-- Write a buffer member. -/
def IPMIInterface.setBuf (s : IPMIInterface) (f : BufField) (bs : List Nat) :
    IPMIInterface :=
  match f with
  | .inmsg => { s with inmsg := bs }

/-- One entry of a `VMStateField[]` table, as written in `ipmi.c`.  The
`_test` argument of `VMSTATE_VBUFFER_UINT32` is `NULL` in the only use and is
left out. -/
inductive VMStateField where
  | VMSTATE_BOOL (field : BoolField)
  | VMSTATE_UINT32 (field : U32Field)
  | VMSTATE_VBUFFER_UINT32 (field : BufField) (version : Nat) (start : Nat)
      (field_size : U32Field)
  deriving DecidableEq, Repr

/-- The members of `VMStateDescription` set by `ipmi.c`. -/
structure VMStateDescription where
  version_id : Nat
  minimum_version_id : Nat
  fields : List VMStateField
  deriving DecidableEq, Repr

/-- `vmstate_IPMIInterface` (lines 148-163). -/
def vmstate_IPMIInterface : VMStateDescription :=
  { version_id := 1,
    minimum_version_id := 1,
    fields :=
      [ VMStateField.VMSTATE_BOOL BoolField.obf_irq_set,
        VMStateField.VMSTATE_BOOL BoolField.atn_irq_set,
        VMStateField.VMSTATE_BOOL BoolField.use_irq,
        VMStateField.VMSTATE_BOOL BoolField.irqs_enabled,
        VMStateField.VMSTATE_UINT32 U32Field.outpos,
        VMStateField.VMSTATE_UINT32 U32Field.outlen,
        VMStateField.VMSTATE_VBUFFER_UINT32 BufField.inmsg 1 0 U32Field.inlen,
        VMStateField.VMSTATE_BOOL BoolField.write_end ] }

/-- Modelled from the spec: the wire form of a `bool` field, one byte, `1`
for true and `0` for false (the migration engine and the `VMSTATE_*` macros
are not in `ipmi.c`). -/
def put_bool (b : Bool) : List Nat := [if b then 1 else 0]

/-- Modelled from the spec: the wire form of a `u32` field, four bytes, most
significant first. -/
def put_be32 (n : Nat) : List Nat :=
  [n / 2 ^ 24 % 256, n / 2 ^ 16 % 256, n / 2 ^ 8 % 256, n % 256]

/-- Modelled from the spec: reading a `u32` field back from the stream. -/
def get_be32 : List Nat → Option (Nat × List Nat)
  | b3 :: b2 :: b1 :: b0 :: rest =>
    some (b3 * 2 ^ 24 + b2 * 2 ^ 16 + b1 * 2 ^ 8 + b0, rest)
  | _ => none

/-- Modelled from the spec: saving one field.  The buffer field is the
"length-prefixed byte buffer (length field = inLen, u32)" of the persisted
layout: the `u32` length, then that many bytes of the buffer from offset
`start`. -/
def vmstate_save_field (s : IPMIInterface) : VMStateField → List Nat
  | .VMSTATE_BOOL f => put_bool (s.getBool f)
  | .VMSTATE_UINT32 f => put_be32 (s.getU32 f)
  | .VMSTATE_VBUFFER_UINT32 f _ start sz =>
    put_be32 (s.getU32 sz) ++ ((s.getBuf f).drop start).take (s.getU32 sz)

/-- Modelled from the spec: saving a state is the concatenation of its
fields in the order of the table ("order-significant"). -/
def vmstate_save_state (vmsd : VMStateDescription) (s : IPMIInterface) :
    List Nat :=
  (vmsd.fields.map (vmstate_save_field s)).flatten

/-- Modelled from the spec: loading one field into `s` from the head of the
stream; `none` when the stream is too short or the length read for a buffer
exceeds its capacity ("capped by a fixed maximum"). -/
def vmstate_load_field (s : IPMIInterface) (fld : VMStateField)
    (stream : List Nat) : Option (IPMIInterface × List Nat) :=
  match fld with
  | .VMSTATE_BOOL f =>
    match stream with
    | b :: rest => some (s.setBool f (decide (b ≠ 0)), rest)
    | [] => none
  | .VMSTATE_UINT32 f =>
    match get_be32 stream with
    | some (n, rest) => some (s.setU32 f n, rest)
    | none => none
  | .VMSTATE_VBUFFER_UINT32 f _ start sz =>
    match get_be32 stream with
    | some (n, rest) =>
      let buf := s.getBuf f
      if start + n ≤ buf.length ∧ n ≤ rest.length then
        some ((s.setU32 sz n).setBuf f
                (buf.take start ++ rest.take n ++ buf.drop (start + n)),
              rest.drop n)
      else none
    | none => none

/-- Modelled from the spec: loading the fields of a table in order, threading
the state and the rest of the stream. -/
def vmstate_load_fields :
    List VMStateField → IPMIInterface → List Nat → Option (IPMIInterface × List Nat)
  | [], s, stream => some (s, stream)
  | fld :: flds, s, stream =>
    match vmstate_load_field s fld stream with
    | some (s1, rest) => vmstate_load_fields flds s1 rest
    | none => none

/-- Modelled from the spec: loading a saved state of version `version_id`
into `s`; any version outside `minimum_version_id .. version_id` of the
description is rejected ("a restore must reject or migrate any other
version").  Returns the loaded state and the unread rest of the stream. -/
def vmstate_load_state (vmsd : VMStateDescription) (s : IPMIInterface)
    (version_id : Nat) (stream : List Nat) : Option (IPMIInterface × List Nat) :=
  if vmsd.version_id < version_id ∨ version_id < vmsd.minimum_version_id then none
  else vmstate_load_fields vmsd.fields s stream

end Ipmi

namespace Ipmi

/-! ## Theorems: hardware-operation dispatch -/

/-- C1: every operation that is not chassis reset, chassis power-off or NMI
injection (power-cycle, diagnostic-IRQ pulse, ACPI-overtemp shutdown, power-on
and any other value) returns `IPMI_CC_COMMAND_NOT_SUPPORTED` for every
`checkonly`, makes no external call and leaves the interface unchanged. -/
theorem C1_unsupported_ops (cc : Int) (s : IPMIInterface) (op : ipmi_op)
    (checkonly : Int)
    (hop : op ≠ ipmi_op.IPMI_RESET_CHASSIS ∧ op ≠ ipmi_op.IPMI_POWEROFF_CHASSIS ∧
      op ≠ ipmi_op.IPMI_SEND_NMI) :
    ipmi_do_hw_op cc s op checkonly = ⟨cc, s, []⟩ := by
  obtain ⟨h1, h2, h3⟩ := hop
  cases op <;> simp_all [ipmi_do_hw_op]

/-- Witness of C1 at power-cycle, `checkonly = 1`. -/
theorem C1_unsupported_ops_witness :
    ipmi_do_hw_op 0xd5 (IPMIInterface.zeroed 4) ipmi_op.IPMI_POWERCYCLE_CHASSIS 1
      = ⟨0xd5, IPMIInterface.zeroed 4, []⟩ :=
  C1_unsupported_ops 0xd5 (IPMIInterface.zeroed 4) ipmi_op.IPMI_POWERCYCLE_CHASSIS 1
    (by decide)

/-- C2: for chassis reset, chassis power-off and NMI injection, a non-zero
`checkonly` returns 0 with an empty effect trace (no reset request, no
powerdown request, no NMI injection, no iothread lock) and the interface
unchanged. -/
theorem C2_checkonly_no_effect (cc : Int) (s : IPMIInterface) (op : ipmi_op)
    (checkonly : Int)
    (hop : op = ipmi_op.IPMI_RESET_CHASSIS ∨ op = ipmi_op.IPMI_POWEROFF_CHASSIS ∨
      op = ipmi_op.IPMI_SEND_NMI)
    (hc : checkonly ≠ 0) :
    ipmi_do_hw_op cc s op checkonly = ⟨0, s, []⟩ := by
  rcases hop with h | h | h <;> subst h <;> simp [ipmi_do_hw_op, hc]

/-- Witness of C2 at NMI injection, `checkonly = -1`. -/
theorem C2_checkonly_no_effect_witness :
    ipmi_do_hw_op 0xd5 (IPMIInterface.zeroed 4) ipmi_op.IPMI_SEND_NMI (-1)
      = ⟨0, IPMIInterface.zeroed 4, []⟩ :=
  C2_checkonly_no_effect 0xd5 (IPMIInterface.zeroed 4) ipmi_op.IPMI_SEND_NMI (-1)
    (by decide) (by decide)

/-- C3: with `checkonly = 0` each supported operation returns 0, leaves the
interface unchanged, and makes exactly its own host call: the reset request
for chassis reset, the powerdown request for chassis power-off, and for NMI
the injection between taking and releasing the iothread lock. -/
theorem C3_supported_ops_effect (cc : Int) (s : IPMIInterface) :
    ipmi_do_hw_op cc s ipmi_op.IPMI_RESET_CHASSIS 0
        = ⟨0, s, [Effect.qemu_system_reset_request]⟩ ∧
    ipmi_do_hw_op cc s ipmi_op.IPMI_POWEROFF_CHASSIS 0
        = ⟨0, s, [Effect.qemu_system_powerdown_request]⟩ ∧
    ipmi_do_hw_op cc s ipmi_op.IPMI_SEND_NMI 0
        = ⟨0, s, [Effect.qemu_mutex_lock_iothread, Effect.qmp_inject_nmi,
                  Effect.qemu_mutex_unlock_iothread]⟩ := by
  simp [ipmi_do_hw_op]

/-! ## Theorems: `ipmi_set_irq_enable` -/

/-- C5: `ipmi_set_irq_enable s v` sets `irqs_enabled` to `v != 0` and keeps
every other field of `s`; enabling and then disabling gives `s` with
`irqs_enabled` false.  The function returns the new interface only: it makes
no external call. -/
theorem C5_set_irq_enable_frame (s : IPMIInterface) (v : Int) :
    (ipmi_set_irq_enable s v).irqs_enabled = decide (v ≠ 0) ∧
    (ipmi_set_irq_enable s v).obf_irq_set = s.obf_irq_set ∧
    (ipmi_set_irq_enable s v).atn_irq_set = s.atn_irq_set ∧
    (ipmi_set_irq_enable s v).use_irq = s.use_irq ∧
    (ipmi_set_irq_enable s v).outpos = s.outpos ∧
    (ipmi_set_irq_enable s v).outlen = s.outlen ∧
    (ipmi_set_irq_enable s v).inmsg = s.inmsg ∧
    (ipmi_set_irq_enable s v).inlen = s.inlen ∧
    (ipmi_set_irq_enable s v).write_end = s.write_end ∧
    (ipmi_set_irq_enable s v).slave_addr = s.slave_addr ∧
    (ipmi_set_irq_enable s v).do_wake = s.do_wake ∧
    (ipmi_set_irq_enable s v).threaded_bmc = s.threaded_bmc ∧
    ipmi_set_irq_enable (ipmi_set_irq_enable s 1) 0
      = { s with irqs_enabled := false } := by
  simp [ipmi_set_irq_enable]

/-! ## Theorems: `ipmi_interface_init` -/

theorem init_tail_errp (s : IPMIInterface) (e : Option Error) :
    (ipmi_interface_init_tail s e).errp = e := rfl

theorem init_tail_slave_addr (s : IPMIInterface) (e : Option Error) :
    (ipmi_interface_init_tail s e).state.slave_addr
      = if s.slave_addr = 0 then 0x20 else s.slave_addr := by
  simp only [ipmi_interface_init_tail]
  split <;> rfl

theorem init_tail_irq_flags (s : IPMIInterface) (e : Option Error) :
    (ipmi_interface_init_tail s e).state.irqs_enabled = s.irqs_enabled ∧
    (ipmi_interface_init_tail s e).state.use_irq = s.use_irq := by
  simp only [ipmi_interface_init_tail]
  split <;> exact ⟨rfl, rfl⟩

/-- C4 as stated fails: an interface whose address is configured to the byte
value 0 comes out of a successful init with address `0x20`, not 0. -/
theorem C4_counterexample :
    (ipmi_interface_init none { IPMIInterface.zeroed 0 with slave_addr := 0 } none).errp
        = none ∧
    (ipmi_interface_init none { IPMIInterface.zeroed 0 with slave_addr := 0 }
        none).state.slave_addr ≠ 0 := by
  decide

/-- C4 (amended): after a successful `ipmi_interface_init` entered with a
clear error slot, the hook absent or leaving the address alone: an unset
(zero) address becomes `0x20`, and an address configured to a non-zero byte
value `a` is still `a`. -/
theorem C4_slave_addr_default (k_init : Option InitHook) (s : IPMIInterface)
    (hhook : ∀ hook, k_init = some hook → (hook s none).1.slave_addr = s.slave_addr)
    (hok : (ipmi_interface_init k_init s none).errp = none) :
    (s.slave_addr = 0 → (ipmi_interface_init k_init s none).state.slave_addr = 0x20) ∧
    (∀ a, a < 256 → a ≠ 0 → s.slave_addr = a →
      (ipmi_interface_init k_init s none).state.slave_addr = a) := by
  have key : (ipmi_interface_init k_init s none).state.slave_addr
      = if s.slave_addr = 0 then 0x20 else s.slave_addr := by
    cases k_init with
    | none => exact init_tail_slave_addr s none
    | some hook =>
      have hk := hhook hook rfl
      revert hok hk
      simp only [ipmi_interface_init]
      rcases hook s none with ⟨s0, _ | e⟩
      · intro _ hk
        simp only at hk
        rw [init_tail_slave_addr, hk]
      · intro hok
        simp at hok
  rw [key]
  constructor
  · intro h0
    simp [h0]
  · intro a _ ha hs
    have hne : s.slave_addr ≠ 0 := by omega
    rw [if_neg hne]
    exact hs

/-- Witness of C4 (amended): no hook, address configured to `0x42`. -/
theorem C4_slave_addr_default_witness :
    (({ IPMIInterface.zeroed 0 with slave_addr := 0x42 } : IPMIInterface).slave_addr = 0 →
      (ipmi_interface_init none { IPMIInterface.zeroed 0 with slave_addr := 0x42 }
        none).state.slave_addr = 0x20) ∧
    (∀ a, a < 256 → a ≠ 0 →
      ({ IPMIInterface.zeroed 0 with slave_addr := 0x42 } : IPMIInterface).slave_addr = a →
      (ipmi_interface_init none { IPMIInterface.zeroed 0 with slave_addr := 0x42 }
        none).state.slave_addr = a) :=
  C4_slave_addr_default none { IPMIInterface.zeroed 0 with slave_addr := 0x42 }
    (by intro hook h; cases h) (by decide)

/-- C7: entered with a clear error slot, `ipmi_interface_init` leaves an error
in the slot exactly when the hook is present and leaves one; and then it has
made none of its threading calls (no mutex init, no condition init, no thread
creation, whatever `threaded_bmc` says) and the interface, slave address
included, is exactly as the hook left it. -/
theorem C7_init_error (k_init : Option InitHook) (s : IPMIInterface) :
    ((ipmi_interface_init k_init s none).errp ≠ none ↔
      ∃ hook, k_init = some hook ∧ (hook s none).2 ≠ none) ∧
    ((ipmi_interface_init k_init s none).errp ≠ none →
      (ipmi_interface_init k_init s none).trace = [] ∧
      ∀ hook, k_init = some hook →
        (ipmi_interface_init k_init s none).state = (hook s none).1) := by
  cases k_init with
  | none => simp [ipmi_interface_init, init_tail_errp]
  | some hook =>
    simp only [ipmi_interface_init]
    rcases hh : hook s none with ⟨s0, _ | e⟩
    · simp [init_tail_errp, hh]
    · simp [hh]

/-- Witness of C7: a failing hook on an interface with `threaded_bmc` set and
no slave address. -/
theorem C7_init_error_witness :
    (ipmi_interface_init (some (fun s _ => (s, some ⟨"init failed"⟩)))
        { IPMIInterface.zeroed 0 with threaded_bmc := true } none).errp ≠ none ∧
    (ipmi_interface_init (some (fun s _ => (s, some ⟨"init failed"⟩)))
        { IPMIInterface.zeroed 0 with threaded_bmc := true } none).trace = [] ∧
    (ipmi_interface_init (some (fun s _ => (s, some ⟨"init failed"⟩)))
        { IPMIInterface.zeroed 0 with threaded_bmc := true } none).state.slave_addr = 0 :=
  have herr : (ipmi_interface_init (some (fun s _ => (s, some ⟨"init failed"⟩)))
      { IPMIInterface.zeroed 0 with threaded_bmc := true } none).errp ≠ none := by
    simp [ipmi_interface_init]
  have h := (C7_init_error (some (fun s _ => (s, some ⟨"init failed"⟩)))
      { IPMIInterface.zeroed 0 with threaded_bmc := true }).2 herr
  ⟨herr, h.1, by rw [h.2 _ rfl]; rfl⟩

/-- C9 as stated fails: a zeroed interface initialised successfully without a
hook has `irqs_enabled` false, not true. -/
theorem C9_counterexample :
    (ipmi_interface_init none (IPMIInterface.zeroed 0) none).errp = none ∧
    (ipmi_interface_init none (IPMIInterface.zeroed 0) none).state.irqs_enabled
      = false := by
  decide

/-- C9 (amended): `ipmi_interface_init` never writes `irqs_enabled` or
`use_irq`.  For an interface in which both are false (a zeroed one), after a
successful init entered with a clear error slot, the hook absent or not
writing these flags, `irqs_enabled` is false and `use_irq` is false. -/
theorem C9_init_keeps_irq_flags (k_init : Option InitHook) (s : IPMIInterface)
    (hirq : s.irqs_enabled = false) (huse : s.use_irq = false)
    (hhook : ∀ hook, k_init = some hook →
      (hook s none).1.irqs_enabled = s.irqs_enabled ∧
      (hook s none).1.use_irq = s.use_irq)
    (hok : (ipmi_interface_init k_init s none).errp = none) :
    (ipmi_interface_init k_init s none).state.irqs_enabled = false ∧
    (ipmi_interface_init k_init s none).state.use_irq = false := by
  cases k_init with
  | none =>
    have h := init_tail_irq_flags s none
    exact ⟨h.1.trans hirq, h.2.trans huse⟩
  | some hook =>
    have hk := hhook hook rfl
    revert hok hk
    simp only [ipmi_interface_init]
    rcases hook s none with ⟨s0, _ | e⟩
    · intro _ hk
      simp only at hk
      have h := init_tail_irq_flags s0 none
      exact ⟨h.1.trans (hk.1.trans hirq), h.2.trans (hk.2.trans huse)⟩
    · intro hok
      simp at hok

/-- Witness of C9 (amended): the zeroed interface, no hook. -/
theorem C9_init_keeps_irq_flags_witness :
    (ipmi_interface_init none (IPMIInterface.zeroed 0) none).state.irqs_enabled = false ∧
    (ipmi_interface_init none (IPMIInterface.zeroed 0) none).state.use_irq = false :=
  C9_init_keeps_irq_flags none (IPMIInterface.zeroed 0) rfl rfl
    (by intro hook h; cases h) (by decide)

/-! ## Theorems: the worker loop `ipmi_thread` -/

theorem post_wakes_succ_awake (n : Nat) (t : ThreadState)
    (h : t.pos ≠ WorkerPos.blocked) :
    post_wakes (n + 1) t = { t with do_wake := true } := by
  induction n generalizing t with
  | zero =>
    obtain ⟨w, p, c⟩ := t
    cases p <;> simp_all [post_wakes, post_wake]
  | succ n ih =>
    have h1 : (post_wake t).pos ≠ WorkerPos.blocked := by
      obtain ⟨w, p, c⟩ := t
      cases p <;> simp_all [post_wake]
    rw [post_wakes, ih _ h1]
    obtain ⟨w, p, c⟩ := t
    cases p <;> simp_all [post_wake]

theorem ipmi_thread_run_blocked (fuel : Nat) (t : ThreadState)
    (h : t.pos = WorkerPos.blocked) : ipmi_thread_run fuel t = t := by
  cases fuel with
  | zero => rfl
  | succ f => simp [ipmi_thread_run, ipmi_thread_step, h]

/-- C8: take the worker inside `handle_if_event` with `do_wake` clear (line 43
has just cleared it), let `N` wakes be posted during that call and none
later.  Left to run, the worker reaches the sleep in `qemu_cond_wait` with
`do_wake` clear, having started the handler exactly once more when `N ≥ 1`
and not at all when `N = 0`; more fuel changes nothing. -/
theorem C8_wake_coalescing (t : ThreadState) (N : Nat)
    (hpos : t.pos = WorkerPos.in_handler) (hclr : t.do_wake = false) :
    ∃ k, ∀ fuel, k ≤ fuel →
      ipmi_thread_run fuel (post_wakes N t)
        = { do_wake := false, pos := WorkerPos.blocked,
            calls := t.calls + (if N = 0 then 0 else 1) } := by
  obtain ⟨w, p, c⟩ := t
  simp only at hpos hclr
  subst hpos hclr
  cases N with
  | zero =>
    refine ⟨3, fun fuel hf => ?_⟩
    obtain ⟨f, rfl⟩ : ∃ f, fuel = f + 3 := ⟨fuel - 3, by omega⟩
    simp [post_wakes, ipmi_thread_run, ipmi_thread_step, ipmi_thread_run_blocked]
  | succ n =>
    refine ⟨6, fun fuel hf => ?_⟩
    obtain ⟨f, rfl⟩ : ∃ f, fuel = f + 6 := ⟨fuel - 6, by omega⟩
    rw [post_wakes_succ_awake n _ (by simp)]
    simp [ipmi_thread_run, ipmi_thread_step, ipmi_thread_run_blocked]

/-- Witness of C8: three wakes posted during the sixth handler call. -/
theorem C8_wake_coalescing_witness :
    ∃ k, ∀ fuel, k ≤ fuel →
      ipmi_thread_run fuel (post_wakes 3 ⟨false, WorkerPos.in_handler, 6⟩)
        = { do_wake := false, pos := WorkerPos.blocked,
            calls := 6 + (if 3 = 0 then 0 else 1) } :=
  C8_wake_coalescing ⟨false, WorkerPos.in_handler, 6⟩ 3 rfl rfl

/-- C10, the code at the failing input: a wake posted right after thread
creation, before the worker first waits.  The worker takes the lock, enters
`qemu_cond_wait` and sleeps there with `do_wake` set and the handler never
called; from that state it has no step of its own, and only a further wake
makes it run the handler. -/
theorem C10_sleeps_with_wake_pending :
    ipmi_thread_run 2 (post_wake ThreadState.created)
      = { do_wake := true, pos := WorkerPos.blocked, calls := 0 } ∧
    ipmi_thread_step { do_wake := true, pos := WorkerPos.blocked, calls := 0 } = none ∧
    ipmi_thread_run 5
        (post_wake { do_wake := true, pos := WorkerPos.blocked, calls := 0 })
      = { do_wake := false, pos := WorkerPos.blocked, calls := 1 } := by
  decide

/-! ## Theorems: save and load of `vmstate_IPMIInterface` -/

theorem get_be32_put_be32 (n : Nat) (rest : List Nat) (h : n < 2 ^ 32) :
    get_be32 (put_be32 n ++ rest) = some (n, rest) := by
  simp only [put_be32, get_be32, List.cons_append, List.nil_append]
  norm_num at h ⊢
  omega

theorem load_field_put_bool (s : IPMIInterface) (f : BoolField) (b : Bool)
    (rest : List Nat) :
    vmstate_load_field s (VMStateField.VMSTATE_BOOL f) (put_bool b ++ rest)
      = some (s.setBool f b, rest) := by
  cases b <;> simp [vmstate_load_field, put_bool]

theorem load_field_put_be32 (s : IPMIInterface) (f : U32Field) (n : Nat)
    (rest : List Nat) (h : n < 2 ^ 32) :
    vmstate_load_field s (VMStateField.VMSTATE_UINT32 f) (put_be32 n ++ rest)
      = some (s.setU32 f n, rest) := by
  simp [vmstate_load_field, get_be32_put_be32 n rest h]

theorem load_field_put_vbuffer (s : IPMIInterface) (f : BufField) (v : Nat)
    (sz : U32Field) (n : Nat) (bytes rest : List Nat) (h : n < 2 ^ 32)
    (hlen : bytes.length = n) (hcap : n ≤ (s.getBuf f).length) :
    vmstate_load_field s (VMStateField.VMSTATE_VBUFFER_UINT32 f v 0 sz)
        (put_be32 n ++ bytes ++ rest)
      = some ((s.setU32 sz n).setBuf f (bytes ++ (s.getBuf f).drop n), rest) := by
  subst hlen
  simp [vmstate_load_field, List.append_assoc, get_be32_put_be32 _ _ h, hcap]

/-- The stream saved for `s`, field by field. -/
theorem vmstate_save_state_IPMIInterface (s : IPMIInterface) :
    vmstate_save_state vmstate_IPMIInterface s
      = put_bool s.obf_irq_set ++ (put_bool s.atn_irq_set ++ (put_bool s.use_irq ++
        (put_bool s.irqs_enabled ++ (put_be32 s.outpos ++ (put_be32 s.outlen ++
        ((put_be32 s.inlen ++ s.inmsg.take s.inlen ++ (put_bool s.write_end ++ []))))))))
        := by
  simp [vmstate_save_state, vmstate_IPMIInterface, vmstate_save_field,
    IPMIInterface.getBool, IPMIInterface.getU32, IPMIInterface.getBuf]

/-- C6: for a state with `outpos ≤ outlen` and `inlen` within the capacity of
`inmsg` (the `uint32_t` fields in range), saving by the table
`vmstate_IPMIInterface` and loading the stream, at the table's version 1, into
a zeroed interface of the same capacity succeeds, reads the whole stream, and
gives back every saved field: the four IRQ flags, `outpos`, `outlen`, `inlen`,
the first `inlen` bytes of `inmsg`, and `write_end`. -/
theorem C6_vmstate_roundtrip (s : IPMIInterface)
    (hpos : s.outpos ≤ s.outlen) (hlen : s.inlen ≤ s.inmsg.length)
    (hout : s.outlen < 2 ^ 32) (hin : s.inlen < 2 ^ 32) :
    ∃ r, vmstate_load_state vmstate_IPMIInterface
            (IPMIInterface.zeroed s.inmsg.length) vmstate_IPMIInterface.version_id
            (vmstate_save_state vmstate_IPMIInterface s) = some (r, []) ∧
      r.obf_irq_set = s.obf_irq_set ∧ r.atn_irq_set = s.atn_irq_set ∧
      r.use_irq = s.use_irq ∧ r.irqs_enabled = s.irqs_enabled ∧
      r.outpos = s.outpos ∧ r.outlen = s.outlen ∧ r.inlen = s.inlen ∧
      r.inmsg.take s.inlen = s.inmsg.take s.inlen ∧
      r.inmsg.length = s.inmsg.length ∧
      r.write_end = s.write_end := by
  have hop : s.outpos < 2 ^ 32 := lt_of_le_of_lt hpos hout
  have hload : vmstate_load_state vmstate_IPMIInterface
      (IPMIInterface.zeroed s.inmsg.length) vmstate_IPMIInterface.version_id
      (vmstate_save_state vmstate_IPMIInterface s)
      = some ({ obf_irq_set := s.obf_irq_set, atn_irq_set := s.atn_irq_set,
                use_irq := s.use_irq, irqs_enabled := s.irqs_enabled,
                outpos := s.outpos, outlen := s.outlen,
                inmsg := s.inmsg.take s.inlen
                  ++ (List.replicate s.inmsg.length 0).drop s.inlen,
                inlen := s.inlen, write_end := s.write_end,
                slave_addr := 0, do_wake := false, threaded_bmc := false }, []) := by
    rw [vmstate_save_state_IPMIInterface]
    simp only [vmstate_load_state, vmstate_IPMIInterface, vmstate_load_fields]
    rw [load_field_put_bool]
    simp only []
    rw [load_field_put_bool]
    simp only []
    rw [load_field_put_bool]
    simp only []
    rw [load_field_put_bool]
    simp only []
    rw [load_field_put_be32 _ _ _ _ hop]
    simp only []
    rw [load_field_put_be32 _ _ _ _ hout]
    simp only []
    rw [load_field_put_vbuffer _ _ _ _ _ _ _ hin (List.length_take_of_le hlen)
      (by simpa [IPMIInterface.getBuf, IPMIInterface.setU32, IPMIInterface.setBool,
        IPMIInterface.zeroed] using hlen)]
    simp only []
    rw [load_field_put_bool]
    simp [IPMIInterface.getBuf, IPMIInterface.setBuf, IPMIInterface.setU32,
      IPMIInterface.setBool, IPMIInterface.zeroed]
  refine ⟨_, hload, rfl, rfl, rfl, rfl, rfl, rfl, rfl, ?_, ?_, rfl⟩
  · simp [List.take_append_of_le_length, hlen]
  · simp [List.length_take_of_le hlen]
    omega

/-- Witness of C6 at `IPMIInterface.sample`. -/
theorem C6_vmstate_roundtrip_witness :
    ∃ r, vmstate_load_state vmstate_IPMIInterface
            (IPMIInterface.zeroed IPMIInterface.sample.inmsg.length)
            vmstate_IPMIInterface.version_id
            (vmstate_save_state vmstate_IPMIInterface IPMIInterface.sample)
            = some (r, []) ∧
      r.obf_irq_set = IPMIInterface.sample.obf_irq_set ∧
      r.atn_irq_set = IPMIInterface.sample.atn_irq_set ∧
      r.use_irq = IPMIInterface.sample.use_irq ∧
      r.irqs_enabled = IPMIInterface.sample.irqs_enabled ∧
      r.outpos = IPMIInterface.sample.outpos ∧
      r.outlen = IPMIInterface.sample.outlen ∧
      r.inlen = IPMIInterface.sample.inlen ∧
      r.inmsg.take IPMIInterface.sample.inlen
        = IPMIInterface.sample.inmsg.take IPMIInterface.sample.inlen ∧
      r.inmsg.length = IPMIInterface.sample.inmsg.length ∧
      r.write_end = IPMIInterface.sample.write_end :=
  C6_vmstate_roundtrip IPMIInterface.sample (by decide) (by decide)
    (by norm_num [IPMIInterface.sample, IPMIInterface.zeroed])
    (by norm_num [IPMIInterface.sample, IPMIInterface.zeroed])

end Ipmi
